import Mathlib

/-!
Shallow embedding of the performance-rating subsystem of bancho.py
(`app/usecases/performance.py`, `app/constants/nerfed_maps.py`,
`tools/recalc.py`), with theorems checking the natural-language
specification against the code.

Python floats are modelled by the type `Flt`: a finite rational, or one
of the non-finite values NaN, +inf, -inf.  All finite arithmetic is
exact rational arithmetic; the non-finite values propagate through the
operations following IEEE-754 / Python semantics (overflow of finite
arithmetic is not modelled).
-/

/-- Model of a Python float: a finite rational number or NaN / +inf / -inf. -/
inductive Flt where
  | num (q : ℚ)
  | nan
  | inf
  | ninf
  deriving DecidableEq, Repr

namespace Flt

/-- Negation of a float. -/
def neg : Flt → Flt
  | num q => num (-q)
  | nan => nan
  | inf => ninf
  | ninf => inf

/-- Addition of floats, with IEEE propagation of NaN and infinities. -/
def add : Flt → Flt → Flt
  | num a, num b => num (a + b)
  | nan, _ => nan
  | _, nan => nan
  | inf, ninf => nan
  | ninf, inf => nan
  | inf, _ => inf
  | _, inf => inf
  | ninf, _ => ninf
  | _, ninf => ninf

/-- Subtraction of floats. -/
def sub (a b : Flt) : Flt := add a (neg b)

/-- Multiplication of floats, with IEEE propagation of NaN and infinities. -/
def mul : Flt → Flt → Flt
  | num a, num b => num (a * b)
  | nan, _ => nan
  | _, nan => nan
  | inf, num a => if a = 0 then nan else if 0 < a then inf else ninf
  | num a, inf => if a = 0 then nan else if 0 < a then inf else ninf
  | ninf, num a => if a = 0 then nan else if 0 < a then ninf else inf
  | num a, ninf => if a = 0 then nan else if 0 < a then ninf else inf
  | inf, inf => inf
  | inf, ninf => ninf
  | ninf, inf => ninf
  | ninf, ninf => inf

/-- Python `max(0.0, x)`: returns `x` if `x > 0.0` else `0.0`
(in particular `max(0.0, nan) = 0.0` since `nan > 0.0` is false). -/
def max0 : Flt → Flt
  | num a => if 0 < a then num a else num 0
  | nan => num 0
  | inf => inf
  | ninf => num 0

/-- Python comparison `x > c` against a finite constant
(`nan > c` is false, `inf > c` is true, `-inf > c` is false). -/
def gtc : Flt → ℚ → Bool
  | num a, c => decide (c < a)
  | nan, _ => false
  | inf, _ => true
  | ninf, _ => false

/-- `math.isnan(x) or math.isinf(x)`. -/
def isNonfinite : Flt → Bool
  | num _ => false
  | _ => true

instance : Add Flt := ⟨add⟩
instance : Sub Flt := ⟨sub⟩
instance : Mul Flt := ⟨mul⟩

end Flt

/-- Python `x or 0.0` on an optional float (`None` collapses to `0.0`;
a present `0.0` stays `0.0`, NaN and infinities are truthy and kept). -/
def orZero : Option Flt → Flt
  | none => Flt.num 0
  | some v => v

/-- Round-half-to-even to an integer, the semantics of Python's `round(x)`
on a nonnegative-exponent tie (banker's rounding). -/
def rhe (q : ℚ) : ℤ :=
  if q - ⌊q⌋ < 1/2 then ⌊q⌋
  else if 1/2 < q - ⌊q⌋ then ⌊q⌋ + 1
  else if 2 ∣ ⌊q⌋ then ⌊q⌋ else ⌊q⌋ + 1

/-- Python `round(x, 3)`: round to 3 decimal digits (half to even). -/
def round3 (q : ℚ) : ℚ := (rhe (q * 1000) : ℚ) / 1000

/-- Modelled from the spec: the mods bit flags (`app/constants/mods.py` is
not part of the reviewed sources).  The spec describes mods as integer bit
flags with a "nightcore" flag and a "double-time" flag ("the engine models
nightcore as double-time with a visual variant"); the standard osu! bit
values are double-time = 64 and nightcore = 512.  The relax flag is the
literal 128 used directly by the reviewed code. -/
def Mods.DOUBLETIME : ℕ := 64

/-- Modelled from the spec: the nightcore mods bit flag (see `Mods.DOUBLETIME`). -/
def Mods.NIGHTCORE : ℕ := 512

/-- Modelled from the spec: the relax mods bit flag; the reviewed code
tests it as the literal `128`. -/
def Mods.RELAX : ℕ := 128

/-! ## `app/constants/nerfed_maps.py` -/

/-- `NERFED_TITLE_PATTERNS` from `app/constants/nerfed_maps.py`.  Note that
the Python source ends the list with two adjacent string literals with no
comma between them, which Python implicitly concatenates: the final element
is the single string `"over Speed-up packover speed-up pack"`. -/
def NERFED_TITLE_PATTERNS : List (List Char) :=
  [ "speed-up".toList
  , "speed up".toList
  , "sped up".toList
  , "speed-up map".toList
  , "speed up map pack".toList
  , "sped up pack".toList
  , "over Speed-up packover speed-up pack".toList
  ]

/-- `NERFED_MAPSET_IDS` (empty in the source: the Python literal `{}` is an
empty dict, so the membership test never succeeds). -/
def NERFED_MAPSET_IDS : List ℤ := []

/-- `MAPPER_NERFS`: mapper name → base multiplier. -/
def MAPPER_NERFS : List (List Char × ℚ) :=
  [ ("None1637".toList, 0.70)
  , ("[-Omni-]".toList, 0.95)
  , ("juliet".toList, 0.95)
  , ("xAsuna".toList, 0.95)
  , ("quantumvortex".toList, 0.95)
  , ("Toffery2002".toList, 0.65)
  , ("helloisuck".toList, 0.95)
  , ("hool".toList, 0.75)
  , ("Learner_".toList, 0.40)
  , ("tazuwik".toList, 0.75)
  , ("kselon".toList, 0.75)
  , ("DTtheCarry".toList, 0.65)
  ]

/-- `MAPSET_NERF_MULTIPLIER = 0.85`. -/
def MAPSET_NERF_MULTIPLIER : ℚ := 0.85

/-- Lowercasing of a string (`str.lower`), on the character list model. -/
def lowerStr (s : List Char) : List Char := s.map Char.toLower

/-- The pattern loop of `should_nerf_map`: does any configured pattern
occur as a substring (`pattern in title_lower or pattern in artist_lower`)
of the lowercased title or artist? -/
def patternMatches (title_lower artist_lower : List Char) : Bool :=
  NERFED_TITLE_PATTERNS.any fun p =>
    decide (p <:+: title_lower) || decide (p <:+: artist_lower)

/-- `should_nerf_map(title, artist, creator, set_id, mods)` from
`app/constants/nerfed_maps.py`. -/
def should_nerf_map (title artist creator : List Char) (set_id : ℤ)
    (mods : ℕ) : ℚ :=
  let is_relax : Bool := mods &&& 128 ≠ 0
  let title_lower := lowerStr title
  let artist_lower := lowerStr artist
  if patternMatches title_lower artist_lower then
    MAPSET_NERF_MULTIPLIER
  else if set_id ∈ NERFED_MAPSET_IDS then
    MAPSET_NERF_MULTIPLIER
  else
    match MAPPER_NERFS.lookup creator with
    | some base_nerf => if is_relax then base_nerf * 0.85 else base_nerf
    | none => 1

/-! ## `app/usecases/performance.py` -/

/-- `ScoreParams` from `app/usecases/performance.py`: the caller may pass
either `acc` or the discrete hit counts. -/
structure ScoreParams where
  mode : ℕ
  mods : Option ℕ := none
  combo : Option ℕ := none
  acc : Option ℚ := none
  n300 : Option ℕ := none
  n100 : Option ℕ := none
  n50 : Option ℕ := none
  ngeki : Option ℕ := none
  nkatu : Option ℕ := none
  nmiss : Option ℕ := none
  deriving DecidableEq, Repr

/-- Output of the external difficulty engine (`rosu_pp_py.Performance
.calculate`): the raw components consumed by the pipeline.  `Option`
models attributes that may be absent (`None`); the code reads each as
`x or 0.0`. -/
structure RawPerformance where
  pp : Option Flt := none
  pp_aim : Option Flt := none
  pp_speed : Option Flt := none
  pp_flashlight : Option Flt := none
  deriving DecidableEq, Repr

/-- Python truthiness of an optional float (`None` and `0.0` are falsy). -/
def truthyQ : Option ℚ → Bool
  | some a => a ≠ 0
  | none => false

/-- Python truthiness of an optional int (`None` and `0` are falsy). -/
def truthyN : Option ℕ → Bool
  | some n => n ≠ 0
  | none => false

/-- Python truthiness of an optional string (`None` and `""` are falsy). -/
def truthyStr : Option (List Char) → Bool
  | some s => !s.isEmpty
  | none => false

/-- The input-validation test of `calculate_performances`:
`score.acc and (score.n300 or score.n100 or score.n50 or score.ngeki or
score.nkatu)` — Python truthiness, so a `0`/`0.0` value is falsy. -/
def invalidAccAndHits (score : ScoreParams) : Bool :=
  truthyQ score.acc &&
    (truthyN score.n300 || truthyN score.n100 || truthyN score.n50 ||
      truthyN score.ngeki || truthyN score.nkatu)

/-- The mod-normalization assignment: `if score.mods & Mods.NIGHTCORE:
score.mods |= Mods.DOUBLETIME` (only reached when `score.mods is not None`). -/
def normalize_mods : Option ℕ → Option ℕ
  | none => none
  | some m => if m &&& Mods.NIGHTCORE ≠ 0 then some (m ||| Mods.DOUBLETIME) else some m

/-- `bool((score.mods or 0) & 128)`. -/
def isRelax (mods : Option ℕ) : Bool := (mods.getD 0) &&& 128 ≠ 0

/-- `MISS_PENALTY_MULTIPLIER`: 1.05 under relax, 1.00 otherwise. -/
def MISS_PENALTY_MULTIPLIER (is_relax : Bool) : ℚ :=
  if is_relax then 1.05 else 1.00

/-- `adjusted_misses = int((score.nmiss or 0) * MISS_PENALTY_MULTIPLIER)
if score.nmiss else None` (Python `int` truncates; the operand is ≥ 0). -/
def adjusted_misses (is_relax : Bool) : Option ℕ → Option ℕ
  | some n =>
      if n ≠ 0 then some ⌊(n : ℚ) * MISS_PENALTY_MULTIPLIER is_relax⌋.toNat
      else none
  | none => none

/-- `AIM_MULTIPLIER`: 1.35 under relax, 1.10 otherwise. -/
def AIM_MULTIPLIER (is_relax : Bool) : ℚ := if is_relax then 1.35 else 1.10

/-- `SPEED_MULTIPLIER`: 1.10 under relax, 1.20 otherwise. -/
def SPEED_MULTIPLIER (is_relax : Bool) : ℚ := if is_relax then 1.10 else 1.20

/-- `FLASHLIGHT_MULTIPLIER`: 0.75 under relax, 0.70 otherwise. -/
def FLASHLIGHT_MULTIPLIER (is_relax : Bool) : ℚ := if is_relax then 0.75 else 0.70

/-- The tiered `ACCURACY_MULTIPLIER`, keyed by `score_acc`. -/
def ACCURACY_MULTIPLIER (score_acc : ℚ) : ℚ :=
  if 100 ≤ score_acc then 1.33
  else if 99 ≤ score_acc then 1.31
  else if 98 ≤ score_acc then 1.27
  else if 97 ≤ score_acc then 1.24
  else if 95 ≤ score_acc then 1.19
  else 1.16

/-- `score_acc = score.acc if score.acc else 100.0` — Python truthiness:
a missing or zero accuracy is replaced by `100.0`. -/
def score_acc_of : Option ℚ → ℚ
  | some a => if a ≠ 0 then a else 100
  | none => 100

/-- `CUSTOM_PP_MULTIPLIER = 1.25`. -/
def CUSTOM_PP_MULTIPLIER : ℚ := 1.25

/-- `CS_NERF_MULTIPLIER = 0.75`. -/
def CS_NERF_MULTIPLIER : ℚ := 0.75

/-- `PP_CAPS = {0: 55000, 4: 55000, 8: 20000}`. -/
def PP_CAPS (mode : ℕ) : Option ℚ :=
  if mode = 0 then some 55000
  else if mode = 4 then some 55000
  else if mode = 8 then some 20000
  else none

/-- `PLAYER_BUFFS = {}` (empty in the source). -/
def PLAYER_BUFFS : List (ℕ × ℚ) := []

/-- The length buff/nerf block shared verbatim by `calculate_performances`
and `recalculate_score`: `< 60 → ×0.90`, `elif ≥ 180`: (`≥ 300 → ×1.15`,
`elif ≥ 240 → ×1.10`, `else ×1.05`); otherwise unchanged. -/
def apply_length_bands (map_length_seconds : ℤ) (pp : Flt) : Flt :=
  if map_length_seconds < 60 then pp * Flt.num 0.90
  else if 180 ≤ map_length_seconds then
    (if 300 ≤ map_length_seconds then pp * Flt.num 1.15
     else if 240 ≤ map_length_seconds then pp * Flt.num 1.10
     else pp * Flt.num 1.05)
  else pp

/-- The length adjustment of `calculate_performances`, applied only when
`map_length is not None`. -/
def length_adjust (map_length : Option ℤ) (pp : Flt) : Flt :=
  match map_length with
  | none => pp
  | some len => apply_length_bands len pp

/-- The cap block: when the flag is set and the mode has a cap and the
rating exceeds it, the rating becomes exactly the cap
(`pp = float(PP_CAPS[score.mode])`). -/
def cap_adjust (apply_pp_cap : Bool) (mode : ℕ) (pp : Flt) : Flt :=
  if apply_pp_cap then
    match PP_CAPS mode with
    | some cap => if pp.gtc cap then Flt.num cap else pp
    | none => pp
  else pp

/-- `if player_id and player_id in PLAYER_BUFFS: pp *= PLAYER_BUFFS[player_id]`. -/
def player_buff_adjust (player_id : Option ℕ) (pp : Flt) : Flt :=
  match player_id with
  | some pid =>
      if pid ≠ 0 then
        match PLAYER_BUFFS.lookup pid with
        | some b => pp * Flt.num b
        | none => pp
      else pp
  | none => pp

/-- `if map_title and map_artist and map_creator and map_set_id is not None`. -/
def map_meta_present (map_title map_artist map_creator : Option (List Char))
    (map_set_id : Option ℤ) : Bool :=
  truthyStr map_title && truthyStr map_artist && truthyStr map_creator &&
    map_set_id.isSome

/-- The final sanitization of `calculate_performances`:
`if isnan(pp) or isinf(pp): pp = 0.0 else: pp = round(pp, 3)`. -/
def sanitize_pp : Flt → ℚ
  | .num q => round3 q
  | _ => 0

/-- The per-score body of `calculate_performances`: validation, in-place
mod normalization (returned as the second component — the caller's
`ScoreParams` object after the call), and the adjustment pipeline.  The
external engine's output for the (normalized) score is the parameter
`raw`; `bmap_cs` is `calc_bmap.cs`. -/
def calculate_performance (score : ScoreParams) (raw : RawPerformance)
    (map_title map_artist map_creator : Option (List Char))
    (map_set_id : Option ℤ) (map_length : Option ℤ)
    (apply_pp_cap : Bool) (player_id : Option ℕ) (bmap_cs : ℚ) :
    Except String (ℚ × ScoreParams) :=
  if invalidAccAndHits score then
    .error "Must not specify accuracy AND 300/100/50/geki/katu. Only one or the other."
  else
    let score' := { score with mods := normalize_mods score.mods }
    let is_relax := isRelax score'.mods
    let score_acc := score_acc_of score'.acc
    let pp_aim := orZero raw.pp_aim * Flt.num (AIM_MULTIPLIER is_relax)
    let pp_speed := orZero raw.pp_speed * Flt.num (SPEED_MULTIPLIER is_relax)
    let pp_flashlight :=
      orZero raw.pp_flashlight * Flt.num (FLASHLIGHT_MULTIPLIER is_relax)
    let base_total := orZero raw.pp
    let base_aim := orZero raw.pp_aim
    let base_speed := orZero raw.pp_speed
    let base_flashlight := orZero raw.pp_flashlight
    let pp_acc_estimated :=
      Flt.max0 (base_total - base_aim - base_speed - base_flashlight)
    let pp_acc := pp_acc_estimated * Flt.num (ACCURACY_MULTIPLIER score_acc)
    let pp_recalculated := pp_aim + pp_speed + pp_acc + pp_flashlight
    let pp0 := pp_recalculated * Flt.num CUSTOM_PP_MULTIPLIER
    let pp1 :=
      if map_meta_present map_title map_artist map_creator map_set_id then
        pp0 * Flt.num (should_nerf_map (map_title.getD []) (map_artist.getD [])
          (map_creator.getD []) (map_set_id.getD 0) (score'.mods.getD 0))
      else pp0
    let pp2 :=
      if is_relax && decide ((6 : ℚ) < bmap_cs) then pp1 * Flt.num CS_NERF_MULTIPLIER
      else pp1
    let pp3 := length_adjust map_length pp2
    let pp4 := cap_adjust apply_pp_cap score.mode pp3
    let pp5 := player_buff_adjust player_id pp4
    .ok (sanitize_pp pp5, score')

/-- The `for score in scores` loop of `calculate_performances`: each
score's body runs in order; a raised `ValueError` aborts the whole call,
otherwise the results are collected in order. -/
def calc_scores_loop
    (f : ScoreParams × RawPerformance → Except String (ℚ × ScoreParams)) :
    List (ScoreParams × RawPerformance) →
      Except String (List (ℚ × ScoreParams))
  | [] => .ok []
  | x :: xs =>
    match f x with
    | .error e => .error e
    | .ok r => (calc_scores_loop f xs).map fun rest => r :: rest

/-- `calculate_performances`: an empty/None `osu_file_path` returns `[]`;
otherwise the per-score bodies run in order and a `ValueError` raised for
any score aborts the whole call. -/
def calculate_performances (osu_file_path : Option (List Char))
    (scores : List (ScoreParams × RawPerformance))
    (map_title map_artist map_creator : Option (List Char))
    (map_set_id : Option ℤ) (map_length : Option ℤ)
    (apply_pp_cap : Bool) (player_id : Option ℕ) (bmap_cs : ℚ) :
    Except String (List (ℚ × ScoreParams)) :=
  if !truthyStr osu_file_path then .ok []
  else
    calc_scores_loop
      (fun sr =>
        calculate_performance sr.1 sr.2 map_title map_artist map_creator
          map_set_id map_length apply_pp_cap player_id bmap_cs)
      scores

/-! ## `tools/recalc.py` -/

/-- One row of the score/map join loaded by `recalculate_mode_scores`
(all columns are selected, so every key is present in the dict). -/
structure ScoreRow where
  id : ℕ
  userid : ℕ
  mode : ℕ
  mods : ℕ
  pp : ℚ
  acc : ℚ
  max_combo : ℕ
  ngeki : ℕ
  n300 : ℕ
  nkatu : ℕ
  n100 : ℕ
  n50 : ℕ
  nmiss : ℕ
  map_id : ℕ
  title : List Char
  artist : List Char
  creator : List Char
  set_id : ℤ
  total_length : ℤ
  deriving DecidableEq, Repr

/-- The final non-finite guard of `recalculate_score`:
`if isnan(new_pp) or isinf(new_pp): new_pp = 0.0` — note no rounding. -/
def recalc_sanitize : Flt → ℚ
  | .num q => q
  | _ => 0

/-- The new rating computed and persisted (`UPDATE scores SET pp = ...`)
by `recalculate_score` in `tools/recalc.py`, as a function of the loaded
score row, the external engine's output, and the beatmap's circle size.
The map metadata keys are always present in the row, so the map nerf is
always consulted; the length bands and PP caps are always applied; the
player-buff table is empty. -/
def recalc_new_pp (score : ScoreRow) (raw : RawPerformance) (bmap_cs : ℚ) : ℚ :=
  let is_relax : Bool := score.mods &&& 128 ≠ 0
  let score_acc := score.acc
  let pp_aim := orZero raw.pp_aim * Flt.num (AIM_MULTIPLIER is_relax)
  let pp_speed := orZero raw.pp_speed * Flt.num (SPEED_MULTIPLIER is_relax)
  let pp_flashlight :=
    orZero raw.pp_flashlight * Flt.num (FLASHLIGHT_MULTIPLIER is_relax)
  let base_total := orZero raw.pp
  let base_aim := orZero raw.pp_aim
  let base_speed := orZero raw.pp_speed
  let base_flashlight := orZero raw.pp_flashlight
  let pp_acc_estimated :=
    Flt.max0 (base_total - base_aim - base_speed - base_flashlight)
  let pp_acc := pp_acc_estimated * Flt.num (ACCURACY_MULTIPLIER score_acc)
  let pp_recalculated := pp_aim + pp_speed + pp_acc + pp_flashlight
  let pp0 := pp_recalculated * Flt.num CUSTOM_PP_MULTIPLIER
  let pp1 := pp0 * Flt.num (should_nerf_map score.title score.artist
    score.creator score.set_id score.mods)
  let pp2 :=
    if is_relax && decide ((6 : ℚ) < bmap_cs) then pp1 * Flt.num CS_NERF_MULTIPLIER
    else pp1
  let pp3 := apply_length_bands score.total_length pp2
  let pp4 := cap_adjust true score.mode pp3
  let pp5 :=
    match PLAYER_BUFFS.lookup score.userid with
    | some b => pp4 * Flt.num b
    | none => pp4
  recalc_sanitize pp5

/-- One row of the `SELECT s.pp, s.acc ... ORDER BY s.pp DESC` query in
`recalculate_user`. -/
structure BestScoreRow where
  pp : ℚ
  acc : ℚ
  deriving DecidableEq, Repr

/-- The weighted-sum comprehension
`sum(row[k] * 0.95**i for i, row in enumerate(best_scores))`. -/
def weighted_sum (xs : List ℚ) : ℚ :=
  (xs.enum.map fun p => p.2 * (0.95 : ℚ) ^ p.1).sum

/-- The aggregate written by `recalculate_user`'s upsert
(`pp`, `acc`, `plays`), or `none` when the player has no best scores
(the function returns before any write). -/
def recalculate_user_stats (best_scores : List BestScoreRow) :
    Option (ℤ × ℚ × ℕ) :=
  let total_scores := best_scores.length
  if total_scores = 0 then none
  else
    let weighted_acc := weighted_sum (best_scores.map (·.acc))
    let bonus_acc := 100 / (20 * (1 - (0.95 : ℚ) ^ total_scores))
    let acc := weighted_acc * bonus_acc / 100
    let weighted_pp := weighted_sum (best_scores.map (·.pp))
    let bonus_pp := (416.6667 : ℚ) * (1 - (0.9994 : ℚ) ^ total_scores)
    let pp := rhe (weighted_pp + bonus_pp)
    some (pp, acc, total_scores)

/-- Modelled from the spec: the "unrestricted" privilege bit
(`app/constants/privileges.py` is not part of the reviewed sources); the
spec only requires that some bit of `priv` marks the player unrestricted. -/
def Privileges.UNRESTRICTED : ℕ := 1

/-- The `users` row fetched by `recalculate_user`. -/
structure UserInfo where
  country : List Char
  priv : ℕ
  deriving DecidableEq, Repr

/-- Control flow of `recalculate_user`: early return (`.ok none`) when the
player has no best scores; otherwise the stats are computed and upserted,
and then a missing `users` row raises `Exception("Unknown user ID ...")` —
there is no try/except in this function, so the error propagates. -/
def recalculate_user (best_scores : List BestScoreRow)
    (user_info : Option UserInfo) : Except String (Option (ℤ × ℚ × ℕ)) :=
  if best_scores.length = 0 then .ok none
  else
    match user_info with
    | none => .error "Unknown user ID"
    | some _ => .ok (recalculate_user_stats best_scores)

/-- `asyncio.gather` without `return_exceptions`: the first failing task's
exception propagates to the caller; if all succeed, all results are
collected. -/
def gather {ε α : Type} : List (Except ε α) → Except ε (List α)
  | [] => .ok []
  | t :: ts =>
    match t with
    | .error e => .error e
    | .ok a => (gather ts).map fun rest => a :: rest

/-- One work item of `process_score_chunk`: the availability-check result
for the score's beatmap file, and the outcome of the (unguarded) body of
`recalculate_score` — the computed rating, or the exception the body would
raise (engine failure, storage failure, ...). -/
structure ScoreTaskInput where
  available : Bool
  body : Except String ℚ

/-- `recalculate_score`'s try/except wrapper: any exception from the body
is caught and logged (`.ok none`), never re-raised. -/
def recalculate_score_guarded (body : Except String ℚ) :
    Except String (Option ℚ) :=
  match body with
  | .ok pp => .ok (some pp)
  | .error _ => .ok none

/-- `process_score_chunk`: skip scores whose beatmap file is unavailable,
then gather the guarded recalculation tasks. -/
def process_score_chunk (chunk : List ScoreTaskInput) :
    Except String (List (Option ℚ)) :=
  gather ((chunk.filter (·.available)).map fun i =>
    recalculate_score_guarded i.body)

/-- `process_user_chunk`: gather the (unguarded) `recalculate_user` tasks. -/
def process_user_chunk
    (chunk : List (List BestScoreRow × Option UserInfo)) :
    Except String (List (Option (ℤ × ℚ × ℕ))) :=
  gather (chunk.map fun i => recalculate_user i.1 i.2)

/-! ## Spec-side definitions (for refinement comparisons) -/

/-- The length-band table exactly as the spec words it, in the spec's
stated priority: `<60s → 0.90; ≥300s → 1.15; ≥240s → 1.10; ≥180s → 1.05;
otherwise unchanged`. -/
def spec_length_band (len : ℤ) : ℚ :=
  if len < 60 then 0.90
  else if 300 ≤ len then 1.15
  else if 240 ≤ len then 1.10
  else if 180 ≤ len then 1.05
  else 1

/-- The spec's closed-form weighted sum `∑ i, f i * 0.95^i` over the first
`n` indices. -/
def spec_weighted (f : ℕ → ℚ) (n : ℕ) : ℚ :=
  ∑ i ∈ Finset.range n, f i * (0.95 : ℚ) ^ i

/-! ## Helper lemmas -/

theorem Flt.num_mul (a b : ℚ) : Flt.num a * Flt.num b = Flt.num (a * b) := rfl

theorem apply_length_bands_eq_spec (L : ℤ) (q : ℚ) :
    apply_length_bands L (Flt.num q) = Flt.num (q * spec_length_band L) := by
  unfold apply_length_bands spec_length_band
  split_ifs with h1 h2 h3 h4 <;> simp [Flt.num_mul] <;> omega

theorem PP_CAPS_nonneg {m : ℕ} {c : ℚ} (h : PP_CAPS m = some c) : 0 ≤ c := by
  unfold PP_CAPS at h
  split_ifs at h <;> (injection h with h; rw [← h]; norm_num)

theorem player_buff_adjust_id (pid : Option ℕ) (x : Flt) :
    player_buff_adjust pid x = x := by
  cases pid with
  | none => rfl
  | some p => simp [player_buff_adjust, PLAYER_BUFFS, List.lookup]

/-! ## C6: length bands -/

/-- C6: when a map length is supplied, the length adjustment multiplies
the rating by exactly one band, in the spec's stated priority
(`<60 → 0.90; ≥300 → 1.15; ≥240 → 1.10; ≥180 → 1.05; else unchanged`),
and the boundary lengths 59, 60, 180, 240, 300 receive the multipliers
0.90, none, 1.05, 1.10, 1.15 respectively. -/
theorem C6_length_adjust_bands :
    (∀ (L : ℤ) (q : ℚ),
        length_adjust (some L) (Flt.num q) = Flt.num (q * spec_length_band L)) ∧
    (∀ q : ℚ,
        length_adjust (some 59) (Flt.num q) = Flt.num (q * 0.90) ∧
        length_adjust (some 60) (Flt.num q) = Flt.num q ∧
        length_adjust (some 180) (Flt.num q) = Flt.num (q * 1.05) ∧
        length_adjust (some 240) (Flt.num q) = Flt.num (q * 1.10) ∧
        length_adjust (some 300) (Flt.num q) = Flt.num (q * 1.15)) := by
  constructor
  · intro L q
    exact apply_length_bands_eq_spec L q
  · intro q
    refine ⟨?_, ?_, ?_, ?_, ?_⟩ <;>
      simp [length_adjust, apply_length_bands, Flt.num_mul]

/-! ## C7: per-mode caps -/

/-- C7: with `apply_pp_cap` true, a rating exceeding the per-mode ceiling
(55000 for modes 0 and 4, 20000 for mode 8) is clamped to exactly the
ceiling; every other mode is never clamped; with the flag false no
clamping occurs for any mode (and a rating not exceeding its cap is left
unchanged). -/
theorem C7_cap_enforcement :
    (∀ pp : ℚ, 55000 < pp →
        cap_adjust true 0 (Flt.num pp) = Flt.num 55000 ∧
        cap_adjust true 4 (Flt.num pp) = Flt.num 55000) ∧
    (∀ pp : ℚ, 20000 < pp →
        cap_adjust true 8 (Flt.num pp) = Flt.num 20000) ∧
    (∀ (m : ℕ) (x : Flt), m ≠ 0 → m ≠ 4 → m ≠ 8 →
        cap_adjust true m x = x) ∧
    (∀ (m : ℕ) (x : Flt), cap_adjust false m x = x) ∧
    (∀ (m : ℕ) (pp : ℚ), (∀ c, PP_CAPS m = some c → pp ≤ c) →
        cap_adjust true m (Flt.num pp) = Flt.num pp) := by
  refine ⟨?_, ?_, ?_, ?_, ?_⟩
  · intro pp h
    constructor <;> simp [cap_adjust, PP_CAPS, Flt.gtc, h]
  · intro pp h
    simp [cap_adjust, PP_CAPS, Flt.gtc, h]
  · intro m x h0 h4 h8
    simp [cap_adjust, PP_CAPS, h0, h4, h8]
  · intro m x
    simp [cap_adjust]
  · intro m pp h
    unfold cap_adjust
    cases hc : PP_CAPS m with
    | none => simp
    | some c =>
      have := h c hc
      simp [Flt.gtc, not_lt.mpr this]

/-- Witness for C7 at concrete inputs: 60000 pp in modes 0, 4 clamps to
55000; 25000 pp in mode 8 clamps to 20000; mode 1 and the disabled flag
leave 60000 unchanged. -/
theorem C7_cap_enforcement_witness :
    cap_adjust true 0 (Flt.num 60000) = Flt.num 55000 ∧
    cap_adjust true 4 (Flt.num 60000) = Flt.num 55000 ∧
    cap_adjust true 8 (Flt.num 25000) = Flt.num 20000 ∧
    cap_adjust true 1 (Flt.num 60000) = Flt.num 60000 ∧
    cap_adjust false 0 (Flt.num 60000) = Flt.num 60000 :=
  ⟨(C7_cap_enforcement.1 60000 (by norm_num)).1,
   (C7_cap_enforcement.1 60000 (by norm_num)).2,
   C7_cap_enforcement.2.1 25000 (by norm_num),
   C7_cap_enforcement.2.2.1 1 _ (by norm_num) (by norm_num) (by norm_num),
   C7_cap_enforcement.2.2.2.1 0 _⟩

/-! ## Nerf policy helper lemmas -/

theorem snm_of_pattern {t a : List Char} (c : List Char) (sid : ℤ) (mods : ℕ)
    (h : patternMatches (lowerStr t) (lowerStr a) = true) :
    should_nerf_map t a c sid mods = MAPSET_NERF_MULTIPLIER := by
  unfold should_nerf_map
  simp [h]

theorem snm_of_mapper {t a : List Char} {c : List Char} {B : ℚ} (sid : ℤ)
    (mods : ℕ)
    (hp : patternMatches (lowerStr t) (lowerStr a) = false)
    (hs : sid ∉ NERFED_MAPSET_IDS)
    (hc : MAPPER_NERFS.lookup c = some B) :
    should_nerf_map t a c sid mods =
      (if mods &&& 128 ≠ 0 then B * 0.85 else B) := by
  unfold should_nerf_map
  simp [hp, hs, hc]

theorem snm_of_no_match {t a : List Char} {c : List Char} (sid : ℤ) (mods : ℕ)
    (hp : patternMatches (lowerStr t) (lowerStr a) = false)
    (hs : sid ∉ NERFED_MAPSET_IDS)
    (hc : MAPPER_NERFS.lookup c = none) :
    should_nerf_map t a c sid mods = 1 := by
  unfold should_nerf_map
  simp [hp, hs, hc]

theorem lookup_mem_snd {α β : Type} [BEq α] :
    ∀ {l : List (α × β)} {a : α} {b : β},
      l.lookup a = some b → b ∈ l.map Prod.snd := by
  intro l
  induction l with
  | nil => intro a b h; simp [List.lookup] at h
  | cons hd tl ih =>
    intro a b h
    simp only [List.lookup] at h
    cases hab : (a == hd.1) <;> rw [hab] at h
    · exact List.mem_cons_of_mem _ (ih h)
    · injection h with h
      simp [h]

theorem mapper_values_bounds :
    ∀ b ∈ MAPPER_NERFS.map Prod.snd, 0 < b ∧ b ≤ 1 := by
  intro b hb
  simp only [MAPPER_NERFS, List.map_cons, List.map_nil, List.mem_cons,
    List.not_mem_nil, or_false] at hb
  rcases hb with h | h | h | h | h | h | h | h | h | h | h | h <;>
    rw [h] <;> norm_num

theorem patternMatches_of_mem {p tl al : List Char}
    (hp : p ∈ NERFED_TITLE_PATTERNS) (h : p <:+: tl ∨ p <:+: al) :
    patternMatches tl al = true := by
  unfold patternMatches
  rw [List.any_eq_true]
  refine ⟨p, hp, ?_⟩
  rcases h with h | h <;> simp [h]

theorem snm_pos_le_one (t a c : List Char) (sid : ℤ) (mods : ℕ) :
    0 < should_nerf_map t a c sid mods ∧ should_nerf_map t a c sid mods ≤ 1 := by
  cases hp : patternMatches (lowerStr t) (lowerStr a) with
  | true => rw [snm_of_pattern c sid mods hp]; norm_num [MAPSET_NERF_MULTIPLIER]
  | false =>
    have hs : sid ∉ NERFED_MAPSET_IDS := by simp [NERFED_MAPSET_IDS]
    cases hc : MAPPER_NERFS.lookup c with
    | none => rw [snm_of_no_match sid mods hp hs hc]; norm_num
    | some B =>
      rw [snm_of_mapper sid mods hp hs hc]
      have hB := mapper_values_bounds B (lookup_mem_snd hc)
      split_ifs
      · exact ⟨mul_pos hB.1 (by norm_num), by nlinarith [hB.1, hB.2]⟩
      · exact hB

/-! ## C4: nerf policy priority and compounding -/

/-- C4: `should_nerf_map` applies its rules in priority order with first
match winning and no stacking — a title/artist pattern match returns the
fixed 0.85; otherwise mapset-id membership returns 0.85; otherwise an
exact mapper-name match returns the mapper's base multiplier `B`, times a
further 0.85 when the relax bit (128) is set (mapper base 0.75 under
relax yields exactly 0.6375); otherwise 1.0 — and the result is always
in (0, 1]. -/
theorem C4_should_nerf_map_policy :
    (∀ (t a c : List Char) (sid : ℤ) (mods : ℕ),
        patternMatches (lowerStr t) (lowerStr a) = true →
        should_nerf_map t a c sid mods = 0.85) ∧
    (∀ (t a c : List Char) (sid : ℤ) (mods : ℕ),
        patternMatches (lowerStr t) (lowerStr a) = false →
        sid ∈ NERFED_MAPSET_IDS →
        should_nerf_map t a c sid mods = 0.85) ∧
    (∀ (t a c : List Char) (sid : ℤ) (mods : ℕ) (B : ℚ),
        patternMatches (lowerStr t) (lowerStr a) = false →
        sid ∉ NERFED_MAPSET_IDS →
        MAPPER_NERFS.lookup c = some B →
        should_nerf_map t a c sid mods =
          (if mods &&& 128 ≠ 0 then B * 0.85 else B)) ∧
    (∀ (t a c : List Char) (sid : ℤ) (mods : ℕ),
        patternMatches (lowerStr t) (lowerStr a) = false →
        sid ∉ NERFED_MAPSET_IDS →
        MAPPER_NERFS.lookup c = none →
        should_nerf_map t a c sid mods = 1) ∧
    (∀ (t a : List Char) (sid : ℤ),
        patternMatches (lowerStr t) (lowerStr a) = false →
        sid ∉ NERFED_MAPSET_IDS →
        should_nerf_map t a ("hool".toList) sid 128 = 0.6375) ∧
    (∀ (t a c : List Char) (sid : ℤ) (mods : ℕ),
        0 < should_nerf_map t a c sid mods ∧
          should_nerf_map t a c sid mods ≤ 1) := by
  refine ⟨?_, ?_, ?_, ?_, ?_, ?_⟩
  · intro t a c sid mods h
    exact snm_of_pattern c sid mods h
  · intro t a c sid mods _ hs
    unfold should_nerf_map
    simp [hs, MAPSET_NERF_MULTIPLIER]
  · intro t a c sid mods B hp hs hc
    exact snm_of_mapper sid mods hp hs hc
  · intro t a c sid mods hp hs hc
    exact snm_of_no_match sid mods hp hs hc
  · intro t a sid hp hs
    have hc : MAPPER_NERFS.lookup ("hool".toList) = some 0.75 := rfl
    rw [snm_of_mapper sid 128 hp hs hc]
    norm_num
  · intro t a c sid mods
    exact snm_pos_le_one t a c sid mods

/-- Witness for C4 at concrete inputs: a pattern-matching title gets 0.85;
mapper "hool" with relax mods gets exactly 0.6375; an unknown mapper gets
1.0. -/
theorem C4_should_nerf_map_policy_witness :
    should_nerf_map ("sped up nightcore pack".toList) ("artist".toList)
      ("x".toList) 3 0 = 0.85 ∧
    should_nerf_map ("t".toList) ("a".toList) ("hool".toList) 3 128 = 0.6375 ∧
    should_nerf_map ("t".toList) ("a".toList) ("nobody".toList) 3 0 = 1 :=
  ⟨C4_should_nerf_map_policy.1 _ _ _ _ _ (by decide),
   C4_should_nerf_map_policy.2.2.2.2.1 _ _ _ (by decide) (by decide),
   C4_should_nerf_map_policy.2.2.2.1 _ _ _ _ _ (by decide) (by decide) rfl⟩

/-! ## C10: case-insensitive pattern matching -/

/-- C10: for every configured title/artist pattern and every title or
artist, if the pattern occurs in the title or artist ignoring letter case
(i.e. the lowercased pattern is a substring of the lowercased string),
`should_nerf_map` returns the fixed nerf multiplier 0.85.  (The source
lowercases only the title/artist, not the pattern; the one pattern
containing an upper-case letter still forces a match because its
lowercased form contains the all-lowercase pattern `"speed-up"`.) -/
theorem C10_patterns_case_insensitive :
    ∀ p ∈ NERFED_TITLE_PATTERNS,
      ∀ (title artist creator : List Char) (sid : ℤ) (mods : ℕ),
        (lowerStr p <:+: lowerStr title ∨ lowerStr p <:+: lowerStr artist) →
        should_nerf_map title artist creator sid mods = 0.85 := by
  intro p hp title artist creator sid mods h
  have key : patternMatches (lowerStr title) (lowerStr artist) = true := by
    simp only [NERFED_TITLE_PATTERNS, List.mem_cons, List.not_mem_nil,
      or_false] at hp
    rcases hp with rfl | rfl | rfl | rfl | rfl | rfl | rfl
    · exact patternMatches_of_mem (by decide) h
    · exact patternMatches_of_mem (by decide) h
    · exact patternMatches_of_mem (by decide) h
    · exact patternMatches_of_mem (by decide) h
    · exact patternMatches_of_mem (by decide) h
    · exact patternMatches_of_mem (by decide) h
    · have d : ("speed-up".toList : List Char) <:+:
          lowerStr ("over Speed-up packover speed-up pack".toList) := by decide
      rcases h with h | h
      · exact patternMatches_of_mem (by decide) (Or.inl (d.trans h))
      · exact patternMatches_of_mem (by decide) (Or.inr (d.trans h))
  exact snm_of_pattern creator sid mods key

/-- Witness for C10: the pattern `"speed-up"` occurs (ignoring case) in
the title `"Racing SPEED-UP Mix"`, and the map is nerfed to 0.85. -/
theorem C10_patterns_case_insensitive_witness :
    should_nerf_map ("Racing SPEED-UP Mix".toList) ("a".toList)
      ("b".toList) 7 0 = 0.85 :=
  C10_patterns_case_insensitive ("speed-up".toList) (by decide) _ _ _ _ _
    (Or.inl (by decide))


/-! ## Evaluation helpers for concrete inputs -/

theorem Flt.num_add (a b : ℚ) : Flt.num a + Flt.num b = Flt.num (a + b) := rfl

theorem Flt.num_sub (a b : ℚ) : Flt.num a - Flt.num b = Flt.num (a - b) := by
  show Flt.sub (Flt.num a) (Flt.num b) = Flt.num (a - b)
  simp [Flt.sub, Flt.neg, Flt.add, sub_eq_add_neg]

theorem Flt.num_max0 (a : ℚ) :
    Flt.max0 (Flt.num a) = if 0 < a then Flt.num a else Flt.num 0 := rfl

theorem Flt.num_gtc (a c : ℚ) : Flt.gtc (Flt.num a) c = decide (c < a) := rfl

theorem rhe_floor_lt {q : ℚ} {k : ℤ} (hk : ⌊q⌋ = k) (h : q - k < 1/2) :
    rhe q = k := by
  unfold rhe
  rw [hk, if_pos h]

theorem rhe_floor_gt {q : ℚ} {k : ℤ} (hk : ⌊q⌋ = k) (h : 1/2 < q - k) :
    rhe q = k + 1 := by
  unfold rhe
  rw [hk, if_neg (by linarith), if_pos h]

theorem rhe_half_even {q : ℚ} {k : ℤ} (hk : ⌊q⌋ = k) (h : q - k = 1/2)
    (he : 2 ∣ k) : rhe q = k := by
  unfold rhe
  rw [hk, if_neg (by linarith), if_neg (by linarith), if_pos he]

theorem rhe_half_odd {q : ℚ} {k : ℤ} (hk : ⌊q⌋ = k) (h : q - k = 1/2)
    (he : ¬ 2 ∣ k) : rhe q = k + 1 := by
  unfold rhe
  rw [hk, if_neg (by linarith), if_neg (by linarith), if_neg he]

theorem round3_eval {q : ℚ} {k : ℤ} (h : rhe (q * 1000) = k) :
    round3 q = k / 1000 := by
  unfold round3
  rw [h]

theorem round3_zero : round3 0 = 0 := by
  have h : rhe ((0 : ℚ) * 1000) = (0 : ℤ) :=
    rhe_floor_lt (by norm_num) (by norm_num)
  rw [round3_eval h]
  norm_num

/-! ## C2: accuracy-vs-hit-count validation -/

theorem truthyQ_iff (o : Option ℚ) :
    truthyQ o = true ↔ ∃ x, o = some x ∧ x ≠ 0 := by
  cases o <;> simp [truthyQ]

theorem truthyN_iff (o : Option ℕ) :
    truthyN o = true ↔ ∃ n, o = some n ∧ n ≠ 0 := by
  cases o <;> simp [truthyN]

theorem calc_perf_error_iff (s : ScoreParams) (raw : RawPerformance)
    (mt ma mc : Option (List Char)) (msid mlen : Option ℤ)
    (cap : Bool) (pid : Option ℕ) (cs : ℚ) :
    (∃ e, calculate_performance s raw mt ma mc msid mlen cap pid cs =
      Except.error e) ↔ invalidAccAndHits s = true := by
  unfold calculate_performance
  cases hinv : invalidAccAndHits s <;> simp [hinv]

theorem calc_scores_loop_single
    (f : ScoreParams × RawPerformance → Except String (ℚ × ScoreParams))
    (x : ScoreParams × RawPerformance) :
    (∃ e, calc_scores_loop f [x] = Except.error e) ↔
      (∃ e, f x = Except.error e) := by
  unfold calc_scores_loop
  cases hfx : f x <;> simp [hfx, calc_scores_loop, Except.map]

/-- The claim C2 is false as stated: supplying `acc = 0.0` together with
`n300 = 100` (an accuracy value together with a hit-count field) does not
raise — Python truthiness lets any zero value pass the check — and the
call succeeds. -/
theorem C2_counterexample :
    invalidAccAndHits { mode := 0, acc := some 0, n300 := some 100 } = false ∧
    calculate_performances (some ("map.osu".toList))
        [({ mode := 0, acc := some 0, n300 := some 100 }, {})]
        none none none none none true none 4
      = Except.ok [(0, { mode := 0, acc := some 0, n300 := some 100 })] := by
  constructor
  · rfl
  · norm_num [calculate_performances, calculate_performance, truthyStr,
      invalidAccAndHits, truthyQ, truthyN, normalize_mods, isRelax,
      score_acc_of, ACCURACY_MULTIPLIER, AIM_MULTIPLIER, SPEED_MULTIPLIER,
      FLASHLIGHT_MULTIPLIER, CUSTOM_PP_MULTIPLIER, CS_NERF_MULTIPLIER,
      orZero, Flt.num_mul, Flt.num_add, Flt.num_sub, Flt.num_max0,
      Flt.num_gtc, map_meta_present, length_adjust, cap_adjust,
      player_buff_adjust, PLAYER_BUFFS, PP_CAPS, sanitize_pp,
      calc_scores_loop, Except.map, round3_zero]

/-- C2 (amended): a call to `calculate_performances` fails with the
`ValueError` exactly when the accuracy is supplied with a nonzero value
AND at least one hit-count field is supplied with a nonzero value; any
combination in which the accuracy, or every supplied hit count, is zero
or absent passes the validation. -/
theorem C2_amended_validation (s : ScoreParams) (raw : RawPerformance)
    (path : Option (List Char)) (mt ma mc : Option (List Char))
    (msid mlen : Option ℤ) (cap : Bool) (pid : Option ℕ) (cs : ℚ)
    (hpath : truthyStr path = true) :
    (∃ e, calculate_performances path [(s, raw)] mt ma mc msid mlen cap pid cs
        = Except.error e) ↔
      ((∃ x, s.acc = some x ∧ x ≠ 0) ∧
        ((∃ n, s.n300 = some n ∧ n ≠ 0) ∨ (∃ n, s.n100 = some n ∧ n ≠ 0) ∨
         (∃ n, s.n50 = some n ∧ n ≠ 0) ∨ (∃ n, s.ngeki = some n ∧ n ≠ 0) ∨
         (∃ n, s.nkatu = some n ∧ n ≠ 0))) := by
  have hcall : calculate_performances path [(s, raw)] mt ma mc msid mlen cap
      pid cs = calc_scores_loop
        (fun sr => calculate_performance sr.1 sr.2 mt ma mc msid mlen cap pid
          cs) [(s, raw)] := by
    unfold calculate_performances
    rw [hpath]
    rfl
  rw [hcall, calc_scores_loop_single]
  simp only [calc_perf_error_iff]
  unfold invalidAccAndHits
  rw [Bool.and_eq_true, Bool.or_eq_true, Bool.or_eq_true, Bool.or_eq_true,
    Bool.or_eq_true, truthyQ_iff, truthyN_iff, truthyN_iff, truthyN_iff,
    truthyN_iff, truthyN_iff]
  simp only [or_assoc]

/-- Witness for C2 (amended): nonzero accuracy 98 together with nonzero
`n300 = 5` makes the whole call fail. -/
theorem C2_amended_validation_witness :
    truthyStr (some ("m.osu".toList)) = true ∧
    ∃ e, calculate_performances (some ("m.osu".toList))
        [({ mode := 0, acc := some 98, n300 := some 5 }, {})]
        none none none none none true none 4 = Except.error e :=
  ⟨rfl,
   (C2_amended_validation { mode := 0, acc := some 98, n300 := some 5 } {}
      (some ("m.osu".toList)) none none none none none true none 4 rfl).mpr
     ⟨⟨98, rfl, by norm_num⟩, Or.inl ⟨5, rfl, by norm_num⟩⟩⟩

/-! ## C9: mutation of the caller's ScoreParams -/

/-- The claim C9 is false as stated: a `ScoreParams` with the nightcore
flag (512) and no double-time flag has its `mods` field changed to
`512 ||| 64 = 576` by the call — `score.mods |= Mods.DOUBLETIME` rebinds
the caller-visible dataclass field. -/
theorem C9_counterexample :
    calculate_performance { mode := 0, mods := some 512 } {} none none none
        none none true none 4
      = Except.ok (0, { mode := 0, mods := some 576 }) ∧
    ({ mode := 0, mods := some 576 } : ScoreParams) ≠
      { mode := 0, mods := some 512 } := by
  have hor : (512 : ℕ) ||| 64 = 576 := by decide
  constructor
  · norm_num [calculate_performance, truthyStr,
      invalidAccAndHits, truthyQ, truthyN, normalize_mods, isRelax,
      Mods.NIGHTCORE, Mods.DOUBLETIME, hor,
      score_acc_of, ACCURACY_MULTIPLIER, AIM_MULTIPLIER, SPEED_MULTIPLIER,
      FLASHLIGHT_MULTIPLIER, CUSTOM_PP_MULTIPLIER, CS_NERF_MULTIPLIER,
      orZero, Flt.num_mul, Flt.num_add, Flt.num_sub, Flt.num_max0,
      Flt.num_gtc, map_meta_present, length_adjust, cap_adjust,
      player_buff_adjust, PLAYER_BUFFS, PP_CAPS, sanitize_pp, round3_zero]
  · simp

/-- C9 (amended): a successful call returns the caller's `ScoreParams`
with exactly one change — `mods` is replaced by `normalize_mods mods`,
which ORs the double-time flag into `mods` when the nightcore flag is set
and leaves `mods` unchanged otherwise; every other field is unchanged. -/
theorem C9_amended_mods_mutation (s : ScoreParams) (raw : RawPerformance)
    (mt ma mc : Option (List Char)) (msid mlen : Option ℤ) (cap : Bool)
    (pid : Option ℕ) (cs : ℚ) (r : ℚ × ScoreParams)
    (h : calculate_performance s raw mt ma mc msid mlen cap pid cs =
      Except.ok r) :
    r.2 = { s with mods := normalize_mods s.mods } ∧
    (∀ m : ℕ, m &&& Mods.NIGHTCORE ≠ 0 →
      normalize_mods (some m) = some (m ||| Mods.DOUBLETIME)) ∧
    (∀ m : ℕ, m &&& Mods.NIGHTCORE = 0 →
      normalize_mods (some m) = some m) ∧
    normalize_mods none = none := by
  refine ⟨?_, ?_, ?_, rfl⟩
  · unfold calculate_performance at h
    by_cases hinv : invalidAccAndHits s = true
    · rw [if_pos hinv] at h
      exact absurd h (by simp)
    · rw [if_neg hinv] at h
      injection h with h
      rw [← h]
  · intro m hm
    simp only [normalize_mods]
    rw [if_pos hm]
  · intro m hm
    simp only [normalize_mods]
    rw [if_neg (by simp [hm])]

/-- Witness for C9 (amended): on a concrete successful call the returned
params equal the input with `mods` normalized; nightcore mods 512 gain the
double-time flag, relax mods 128 are unchanged. -/
theorem C9_amended_mods_mutation_witness :
    ((0 : ℚ), ({ mode := 0 } : ScoreParams)).2 =
      { ({ mode := 0 } : ScoreParams) with
          mods := normalize_mods ({ mode := 0 } : ScoreParams).mods } ∧
    normalize_mods (some 512) = some (512 ||| Mods.DOUBLETIME) ∧
    normalize_mods (some 128) = some 128 := by
  have h : calculate_performance { mode := 0 } {} none none none none none
      true none 4 = Except.ok (0, { mode := 0 }) := by
    norm_num [calculate_performance, truthyStr,
      invalidAccAndHits, truthyQ, truthyN, normalize_mods, isRelax,
      Mods.NIGHTCORE, Mods.DOUBLETIME,
      score_acc_of, ACCURACY_MULTIPLIER, AIM_MULTIPLIER, SPEED_MULTIPLIER,
      FLASHLIGHT_MULTIPLIER, CUSTOM_PP_MULTIPLIER, CS_NERF_MULTIPLIER,
      orZero, Flt.num_mul, Flt.num_add, Flt.num_sub, Flt.num_max0,
      Flt.num_gtc, map_meta_present, length_adjust, cap_adjust,
      player_buff_adjust, PLAYER_BUFFS, PP_CAPS, sanitize_pp, round3_zero]
  obtain ⟨h1, h2, h3, -⟩ := C9_amended_mods_mutation { mode := 0 } {} none none
    none none none true none 4 (0, { mode := 0 }) h
  exact ⟨h1, h2 512 (by decide), h3 128 (by decide)⟩

/-! ## C5: accuracy-tier multiplier -/

/-- The claim C5 is false as stated: a play whose accuracy is supplied
directly as `0.0` (far below 95) receives the multiplier 1.33 rather than
1.16 — `score.acc if score.acc else 100.0` treats both a missing and a
zero accuracy as 100, and the tier is never derived from the hit counts.
On a raw engine total of 1 the final rating is `round(1 * 1.33 * 1.25, 3)
= 1.662`, not `round(1 * 1.16 * 1.25, 3) = 1.45`. -/
theorem C5_counterexample :
    score_acc_of (some 0) = 100 ∧
    ACCURACY_MULTIPLIER (score_acc_of (some 0)) = 1.33 ∧
    ((0 : ℚ) < 95) ∧ (1.33 : ℚ) ≠ 1.16 ∧
    calculate_performance { mode := 1, acc := some 0 }
        { pp := some (Flt.num 1) } none none none none none true none 4
      = Except.ok (831/500, { mode := 1, acc := some 0 }) ∧
    (831/500 : ℚ) ≠ round3 (1 * 1.16 * 1.25) := by
  have h1662 : rhe ((133/80 : ℚ) * 1000) = 1662 :=
    rhe_half_even (by norm_num) (by norm_num) (by norm_num)
  have h331 : round3 (133/80) = 831/500 := by
    rw [round3_eval h1662]; norm_num
  have h145 : rhe ((1 * 1.16 * 1.25 : ℚ) * 1000) = 1450 :=
    rhe_floor_lt (by norm_num) (by norm_num)
  refine ⟨rfl, by norm_num [score_acc_of, ACCURACY_MULTIPLIER], by norm_num,
    by norm_num, ?_, ?_⟩
  · norm_num [calculate_performance, truthyStr,
      invalidAccAndHits, truthyQ, truthyN, normalize_mods, isRelax,
      score_acc_of, ACCURACY_MULTIPLIER, AIM_MULTIPLIER, SPEED_MULTIPLIER,
      FLASHLIGHT_MULTIPLIER, CUSTOM_PP_MULTIPLIER, CS_NERF_MULTIPLIER,
      orZero, Flt.num_mul, Flt.num_add, Flt.num_sub, Flt.num_max0,
      Flt.num_gtc, map_meta_present, length_adjust, cap_adjust,
      player_buff_adjust, PLAYER_BUFFS, PP_CAPS, sanitize_pp, h331]
  · rw [round3_eval h145]
    norm_num

/-- C5 (amended): the accuracy-component multiplier is keyed by
`score_acc = acc if supplied and nonzero, else 100.0`; on that key the
tier table is as specified (`≥100→1.33, ≥99→1.31, ≥98→1.27, ≥97→1.24,
≥95→1.19, else 1.16`), so a play with no supplied accuracy — e.g. one
specified by hit counts — or a zero accuracy always receives 1.33. -/
theorem C5_amended_tier_table :
    score_acc_of none = 100 ∧
    score_acc_of (some 0) = 100 ∧
    (∀ a : ℚ, a ≠ 0 → score_acc_of (some a) = a) ∧
    (∀ a : ℚ, 100 ≤ a → ACCURACY_MULTIPLIER a = 1.33) ∧
    (∀ a : ℚ, 99 ≤ a → a < 100 → ACCURACY_MULTIPLIER a = 1.31) ∧
    (∀ a : ℚ, 98 ≤ a → a < 99 → ACCURACY_MULTIPLIER a = 1.27) ∧
    (∀ a : ℚ, 97 ≤ a → a < 98 → ACCURACY_MULTIPLIER a = 1.24) ∧
    (∀ a : ℚ, 95 ≤ a → a < 97 → ACCURACY_MULTIPLIER a = 1.19) ∧
    (∀ a : ℚ, a < 95 → ACCURACY_MULTIPLIER a = 1.16) := by
  refine ⟨rfl, by norm_num [score_acc_of], fun a ha => by simp [score_acc_of, ha],
    ?_, ?_, ?_, ?_, ?_, ?_⟩ <;>
  · intro a h1
    try intro h2
    unfold ACCURACY_MULTIPLIER
    split_ifs <;> first | rfl | linarith

/-- Witness for C5 (amended) at concrete accuracies: 96 keys the 1.19
tier, 50 keys the 1.16 tier, and a supplied nonzero accuracy is used
as-is. -/
theorem C5_amended_tier_table_witness :
    score_acc_of (some 96) = 96 ∧
    ACCURACY_MULTIPLIER 96 = 1.19 ∧
    ACCURACY_MULTIPLIER 50 = 1.16 :=
  ⟨C5_amended_tier_table.2.2.1 96 (by norm_num),
   C5_amended_tier_table.2.2.2.2.2.2.2.1 96 (by norm_num) (by norm_num),
   C5_amended_tier_table.2.2.2.2.2.2.2.2 50 (by norm_num)⟩

/-! ## C3: aggregate rating -/

theorem enumFrom_weighted (xs : List ℚ) (k : ℕ) :
    ((xs.enumFrom k).map fun p => p.2 * (0.95 : ℚ) ^ p.1).sum =
      ∑ i ∈ Finset.range xs.length, xs.getD i 0 * (0.95 : ℚ) ^ (k + i) := by
  induction xs generalizing k with
  | nil => simp
  | cons x xs ih =>
    simp only [List.enumFrom, List.map_cons, List.sum_cons, List.length_cons]
    rw [Finset.sum_range_succ', ih (k + 1)]
    simp only [List.getD_cons_succ, List.getD_cons_zero, add_zero]
    rw [add_comm]
    congr 1
    refine Finset.sum_congr rfl fun i _ => ?_
    have he : k + 1 + i = k + (i + 1) := by omega
    rw [he]

theorem weighted_sum_eq_spec (xs : List ℚ) :
    weighted_sum xs = spec_weighted (fun i => xs.getD i 0) xs.length := by
  unfold weighted_sum spec_weighted
  rw [show xs.enum = xs.enumFrom 0 from rfl, enumFrom_weighted]
  simp

theorem spec_weighted_map (rows : List BestScoreRow) (f : BestScoreRow → ℚ)
    (d : BestScoreRow) :
    spec_weighted (fun i => (rows.map f).getD i 0) (rows.map f).length =
      spec_weighted (fun i => f (rows.getD i d)) rows.length := by
  unfold spec_weighted
  rw [List.length_map]
  refine Finset.sum_congr rfl fun i hi => ?_
  rw [Finset.mem_range] at hi
  simp only []
  congr 1
  rw [List.getD_eq_getElem?_getD, List.getD_eq_getElem?_getD,
    List.getElem?_map, List.getElem?_eq_getElem hi]
  rfl

theorem rhe_nearest (q : ℚ) : |(rhe q : ℚ) - q| ≤ 1/2 := by
  have hfl : (⌊q⌋ : ℚ) ≤ q := Int.floor_le q
  have hfl1 : q < (⌊q⌋ : ℚ) + 1 := Int.lt_floor_add_one q
  unfold rhe
  split_ifs with h1 h2 h3 <;> rw [abs_le] <;> push_cast <;>
    constructor <;> linarith

/-- C3: for a nonempty list of best scores (sorted as loaded), the
aggregate written by `recalculate_user` is `pp = round(Σ pp_i · 0.95^i +
416.6667·(1 − 0.9994^n))` (a nearest integer, half to even),
`acc = (Σ acc_i · 0.95^i) · (100 / (20·(1 − 0.95^n))) / 100`, with
`plays = n`; for an empty list no stats record is written and the
function returns without error. -/
theorem C3_aggregate_formula :
    (∀ rows : List BestScoreRow, rows ≠ [] →
      recalculate_user_stats rows =
        some (rhe (spec_weighted (fun i => (rows.getD i ⟨0, 0⟩).pp) rows.length
              + 416.6667 * (1 - (0.9994 : ℚ) ^ rows.length)),
          spec_weighted (fun i => (rows.getD i ⟨0, 0⟩).acc) rows.length *
            (100 / (20 * (1 - (0.95 : ℚ) ^ rows.length))) / 100,
          rows.length)) ∧
    (∀ q : ℚ, |(rhe q : ℚ) - q| ≤ 1/2) ∧
    recalculate_user_stats [] = none ∧
    (∀ ui, recalculate_user [] ui = Except.ok none) := by
  refine ⟨?_, rhe_nearest, rfl, fun ui => rfl⟩
  intro rows hne
  have hpp : weighted_sum (rows.map (·.pp)) =
      spec_weighted (fun i => (rows.getD i ⟨0, 0⟩).pp) rows.length := by
    rw [weighted_sum_eq_spec, spec_weighted_map rows (·.pp) ⟨0, 0⟩]
  have hacc : weighted_sum (rows.map (·.acc)) =
      spec_weighted (fun i => (rows.getD i ⟨0, 0⟩).acc) rows.length := by
    rw [weighted_sum_eq_spec, spec_weighted_map rows (·.acc) ⟨0, 0⟩]
  simp only [recalculate_user_stats]
  rw [if_neg (by simpa using hne), hpp, hacc]

/-- Witness for C3 on the spec's reference example: two best scores with
ratings [1000, 500] and accuracies [99, 98] aggregate to `pp = 1475`
(weighted 1475, bonus ≈ 0.49985) and weighted accuracy `3842/39 ≈
98.5128`, with 2 plays. -/
theorem C3_aggregate_formula_witness :
    recalculate_user_stats [⟨1000, 99⟩, ⟨500, 98⟩] =
      some (1475, 3842/39, 2) := by
  have h := C3_aggregate_formula.1 [⟨1000, 99⟩, ⟨500, 98⟩] (by simp)
  rw [h]
  have hr : rhe ((368874962509997 : ℚ) / 250000000000) = 1475 :=
    rhe_floor_lt (by norm_num) (by norm_num)
  norm_num [spec_weighted, Finset.sum_range_succ, hr]

/-! ## C8: failure isolation in the batch run -/

theorem gather_ok {ε α : Type} :
    ∀ l : List (Except ε α), (∀ x ∈ l, ∃ a, x = Except.ok a) →
      ∃ out, gather l = Except.ok out := by
  intro l
  induction l with
  | nil => exact fun _ => ⟨[], rfl⟩
  | cons t ts ih =>
    intro h
    obtain ⟨a, ha⟩ := h t (List.mem_cons_self t ts)
    obtain ⟨out, ho⟩ := ih fun x hx => h x (List.mem_cons_of_mem t hx)
    exact ⟨a :: out, by simp [gather, ha, ho, Except.map]⟩

/-- The claim C8 is false as stated: a user chunk containing one user
with best scores but no `users` row aborts the whole chunk with the
uncaught `Exception("Unknown user ID ...")` — failures in
`recalculate_user` are not isolated. -/
theorem C8_counterexample :
    process_user_chunk [([⟨1000, 99⟩], none)] =
      Except.error "Unknown user ID" := rfl

/-- C8 (amended): failures during a single score's recalculation are
caught inside `recalculate_score`, so a score chunk always completes
(`process_score_chunk` never returns an error, whatever each body does);
but `recalculate_user` has no handler, so an error from any single
user's aggregate recomputation propagates through the gather and aborts
the user chunk — in particular a player with best scores but no `users`
row raises. -/
theorem C8_amended_isolation :
    (∀ chunk : List ScoreTaskInput,
      ∃ out, process_score_chunk chunk = Except.ok out) ∧
    (∀ (rows : List BestScoreRow) (ui : Option UserInfo)
        (rest : List (List BestScoreRow × Option UserInfo)) (e : String),
      recalculate_user rows ui = Except.error e →
      process_user_chunk ((rows, ui) :: rest) = Except.error e) ∧
    (∀ rows : List BestScoreRow, rows ≠ [] →
      recalculate_user rows none = Except.error "Unknown user ID") := by
  refine ⟨?_, ?_, ?_⟩
  · intro chunk
    apply gather_ok
    intro x hx
    simp only [List.mem_map] at hx
    obtain ⟨i, -, rfl⟩ := hx
    cases hb : i.body with
    | ok pp => exact ⟨some pp, by simp [recalculate_score_guarded, hb]⟩
    | error e => exact ⟨none, by simp [recalculate_score_guarded, hb]⟩
  · intro rows ui rest e h
    simp [process_user_chunk, gather, h]
  · intro rows hne
    unfold recalculate_user
    rw [if_neg (by simpa using hne)]

/-- Witness for C8 (amended): a score chunk with one failing and one
succeeding body completes; a user chunk whose first user raises aborts
with that error. -/
theorem C8_amended_isolation_witness :
    (∃ out, process_score_chunk
      [⟨true, Except.error "engine failure"⟩, ⟨true, Except.ok 100⟩] =
        Except.ok out) ∧
    recalculate_user [⟨500, 98⟩] none = Except.error "Unknown user ID" ∧
    process_user_chunk [([⟨500, 98⟩], none), ([⟨1000, 99⟩],
        some ⟨"US".toList, 1⟩)] = Except.error "Unknown user ID" := by
  have hu : recalculate_user [⟨500, 98⟩] none =
      Except.error "Unknown user ID" :=
    C8_amended_isolation.2.2 [⟨500, 98⟩] (by simp)
  exact ⟨C8_amended_isolation.1 _, hu,
    C8_amended_isolation.2.1 [⟨500, 98⟩] none _ _ hu⟩

/-! ## C1: sanitization of persisted ratings -/

/-- "Non-negative or non-finite": the property of the engine's raw
component values under which the pipelines produce non-negative persisted
ratings. -/
def NN : Flt → Prop
  | .num q => 0 ≤ q
  | _ => True

/-- All four raw engine components, read through `x or 0.0`, are
non-negative when finite. -/
def NNRaw (raw : RawPerformance) : Prop :=
  NN (orZero raw.pp) ∧ NN (orZero raw.pp_aim) ∧
    NN (orZero raw.pp_speed) ∧ NN (orZero raw.pp_flashlight)

theorem NN_mul_const {x : Flt} {c : ℚ} (hx : NN x) (hc : 0 ≤ c) :
    NN (x * Flt.num c) := by
  cases x with
  | num q => exact mul_nonneg hx hc
  | nan => trivial
  | inf =>
    show NN (Flt.mul Flt.inf (Flt.num c))
    simp only [Flt.mul]
    split_ifs <;> trivial
  | ninf =>
    show NN (Flt.mul Flt.ninf (Flt.num c))
    simp only [Flt.mul]
    split_ifs <;> trivial

theorem NN_add {x y : Flt} (hx : NN x) (hy : NN y) : NN (x + y) := by
  cases x <;> cases y <;> first
    | exact add_nonneg hx hy
    | trivial

theorem NN_max0 (x : Flt) : NN (Flt.max0 x) := by
  cases x with
  | num a =>
    show NN (if 0 < a then Flt.num a else Flt.num 0)
    split_ifs with h
    · exact le_of_lt h
    · exact le_refl 0
  | nan => exact le_refl 0
  | inf => trivial
  | ninf => exact le_refl 0

theorem NN_apply_length_bands {x : Flt} (L : ℤ) (hx : NN x) :
    NN (apply_length_bands L x) := by
  unfold apply_length_bands
  split_ifs <;> first
    | exact NN_mul_const hx (by norm_num)
    | exact hx

theorem NN_length_adjust {x : Flt} (ml : Option ℤ) (hx : NN x) :
    NN (length_adjust ml x) := by
  cases ml with
  | none => exact hx
  | some L => exact NN_apply_length_bands L hx

theorem NN_cap_adjust {x : Flt} (b : Bool) (m : ℕ) (hx : NN x) :
    NN (cap_adjust b m x) := by
  unfold cap_adjust
  cases b with
  | false => exact hx
  | true =>
    simp only [if_true]
    cases hc : PP_CAPS m with
    | none => exact hx
    | some c =>
      show NN (if x.gtc c = true then Flt.num c else x)
      split_ifs
      · exact PP_CAPS_nonneg hc
      · exact hx

theorem rhe_nonneg {q : ℚ} (h : 0 ≤ q) : 0 ≤ rhe q := by
  have h0 : (0 : ℤ) ≤ ⌊q⌋ := Int.floor_nonneg.mpr h
  unfold rhe
  split_ifs <;> omega

theorem round3_nonneg {q : ℚ} (h : 0 ≤ q) : 0 ≤ round3 q := by
  unfold round3
  have := rhe_nonneg (by positivity : (0 : ℚ) ≤ q * 1000)
  positivity

theorem sanitize_pp_nonneg {x : Flt} (hx : NN x) : 0 ≤ sanitize_pp x := by
  cases x with
  | num q => exact round3_nonneg hx
  | nan => exact le_refl 0
  | inf => exact le_refl 0
  | ninf => exact le_refl 0

theorem recalc_sanitize_nonneg {x : Flt} (hx : NN x) :
    0 ≤ recalc_sanitize x := by
  cases x with
  | num q => exact hx
  | nan => exact le_refl 0
  | inf => exact le_refl 0
  | ninf => exact le_refl 0

theorem sanitize_third_decimal (x : Flt) :
    ∃ k : ℤ, sanitize_pp x = (k : ℚ) / 1000 := by
  cases x with
  | num q => exact ⟨rhe (q * 1000), rfl⟩
  | nan => exact ⟨0, by norm_num [sanitize_pp]⟩
  | inf => exact ⟨0, by norm_num [sanitize_pp]⟩
  | ninf => exact ⟨0, by norm_num [sanitize_pp]⟩

theorem AIM_MULTIPLIER_nonneg (b : Bool) : 0 ≤ AIM_MULTIPLIER b := by
  unfold AIM_MULTIPLIER; split_ifs <;> norm_num

theorem SPEED_MULTIPLIER_nonneg (b : Bool) : 0 ≤ SPEED_MULTIPLIER b := by
  unfold SPEED_MULTIPLIER; split_ifs <;> norm_num

theorem FLASHLIGHT_MULTIPLIER_nonneg (b : Bool) :
    0 ≤ FLASHLIGHT_MULTIPLIER b := by
  unfold FLASHLIGHT_MULTIPLIER; split_ifs <;> norm_num

theorem ACCURACY_MULTIPLIER_nonneg (a : ℚ) : 0 ≤ ACCURACY_MULTIPLIER a := by
  unfold ACCURACY_MULTIPLIER; split_ifs <;> norm_num

theorem NN_recomposed (raw : RawPerformance) (b : Bool) (q : ℚ)
    (hraw : NNRaw raw) :
    NN ((orZero raw.pp_aim * Flt.num (AIM_MULTIPLIER b) +
         orZero raw.pp_speed * Flt.num (SPEED_MULTIPLIER b) +
         Flt.max0 (orZero raw.pp - orZero raw.pp_aim - orZero raw.pp_speed -
           orZero raw.pp_flashlight) * Flt.num (ACCURACY_MULTIPLIER q) +
         orZero raw.pp_flashlight * Flt.num (FLASHLIGHT_MULTIPLIER b)) *
        Flt.num CUSTOM_PP_MULTIPLIER) :=
  NN_mul_const
    (NN_add (NN_add (NN_add
      (NN_mul_const hraw.2.1 (AIM_MULTIPLIER_nonneg b))
      (NN_mul_const hraw.2.2.1 (SPEED_MULTIPLIER_nonneg b)))
      (NN_mul_const (NN_max0 _) (ACCURACY_MULTIPLIER_nonneg q)))
      (NN_mul_const hraw.2.2.2 (FLASHLIGHT_MULTIPLIER_nonneg b)))
    (by norm_num [CUSTOM_PP_MULTIPLIER])

/-- The claim C1 is false as stated: `calculate_performances` rounds the
persisted rating to 3 decimals, but `recalculate_score` persists its
value unrounded.  On a raw engine total of 1 (accuracy 100), the recalc
pipeline persists `1 * 1.33 * 1.25 = 1.6625`, which is not a value
rounded to 3 decimal digits. -/
def sampleScoreRow : ScoreRow :=
  { id := 1, userid := 5, mode := 1, mods := 0, pp := 0, acc := 100,
    max_combo := 0, ngeki := 0, n300 := 0, nkatu := 0, n100 := 0, n50 := 0,
    nmiss := 0, map_id := 1, title := "t".toList, artist := "a".toList,
    creator := "c".toList, set_id := 1, total_length := 100 }

/-- See `sampleScoreRow`: the value `recalculate_score` writes to
`scores.pp` for it is `1.6625 = 133/80`, and `round(1.6625, 3) = 1.662 ≠
1.6625` — the persisted value is not rounded to 3 decimal digits, so C1
fails for the `recalculate_score` persistence path. -/
theorem C1_counterexample :
    recalc_new_pp sampleScoreRow { pp := some (Flt.num 1) } 4 = 133/80 ∧
    round3 (133/80) ≠ (133/80 : ℚ) := by
  have hsnm : should_nerf_map ['t'] ['a'] ['c'] 1 0 = 1 := rfl
  constructor
  · norm_num [recalc_new_pp, sampleScoreRow, isRelax,
      score_acc_of, ACCURACY_MULTIPLIER, AIM_MULTIPLIER, SPEED_MULTIPLIER,
      FLASHLIGHT_MULTIPLIER, CUSTOM_PP_MULTIPLIER, CS_NERF_MULTIPLIER,
      orZero, Flt.num_mul, Flt.num_add, Flt.num_sub, Flt.num_max0,
      Flt.num_gtc, apply_length_bands, cap_adjust, hsnm,
      PLAYER_BUFFS, PP_CAPS, recalc_sanitize, List.lookup]
  · have h1662 : rhe ((133/80 : ℚ) * 1000) = 1662 :=
      rhe_half_even (by norm_num) (by norm_num) (by norm_num)
    rw [round3_eval h1662]
    norm_num

/-- C1 (amended): every rating persisted by `calculate_performances` is a
finite rational of the form k/1000 (rounded to 3 decimals), and is
non-negative whenever the engine's raw components are non-negative (or
non-finite); `recalculate_score`'s UPDATE likewise persists a finite,
non-negative value under the same assumption, but without the rounding;
in both pipelines a non-finite final rating is replaced by 0.0 before
persistence. -/
theorem C1_amended_persistence :
    (∀ (s : ScoreParams) (raw : RawPerformance) (mt ma mc : Option (List Char))
        (msid mlen : Option ℤ) (cap : Bool) (pid : Option ℕ) (cs : ℚ)
        (r : ℚ × ScoreParams),
      calculate_performance s raw mt ma mc msid mlen cap pid cs =
        Except.ok r →
      ∃ k : ℤ, r.1 = (k : ℚ) / 1000) ∧
    (∀ (s : ScoreParams) (raw : RawPerformance) (mt ma mc : Option (List Char))
        (msid mlen : Option ℤ) (cap : Bool) (pid : Option ℕ) (cs : ℚ)
        (r : ℚ × ScoreParams),
      calculate_performance s raw mt ma mc msid mlen cap pid cs =
        Except.ok r →
      NNRaw raw → 0 ≤ r.1) ∧
    (∀ (row : ScoreRow) (raw : RawPerformance) (cs : ℚ),
      NNRaw raw → 0 ≤ recalc_new_pp row raw cs) ∧
    (∀ x : Flt, x.isNonfinite = true →
      sanitize_pp x = 0 ∧ recalc_sanitize x = 0) := by
  refine ⟨?_, ?_, ?_, ?_⟩
  · intro s raw mt ma mc msid mlen cap pid cs r h
    unfold calculate_performance at h
    by_cases hinv : invalidAccAndHits s = true
    · rw [if_pos hinv] at h
      exact absurd h (by simp)
    · rw [if_neg hinv] at h
      injection h with h
      rw [← h]
      exact sanitize_third_decimal _
  · intro s raw mt ma mc msid mlen cap pid cs r h hraw
    unfold calculate_performance at h
    by_cases hinv : invalidAccAndHits s = true
    · rw [if_pos hinv] at h
      exact absurd h (by simp)
    · rw [if_neg hinv] at h
      injection h with h
      rw [← h]
      apply sanitize_pp_nonneg
      rw [player_buff_adjust_id]
      apply NN_cap_adjust
      apply NN_length_adjust
      split_ifs
      · exact NN_mul_const (NN_mul_const (NN_recomposed raw _ _ hraw)
          (le_of_lt (snm_pos_le_one _ _ _ _ _).1))
          (by norm_num [CS_NERF_MULTIPLIER])
      · exact NN_mul_const (NN_recomposed raw _ _ hraw)
          (by norm_num [CS_NERF_MULTIPLIER])
      · exact NN_mul_const (NN_recomposed raw _ _ hraw)
          (le_of_lt (snm_pos_le_one _ _ _ _ _).1)
      · exact NN_recomposed raw _ _ hraw
  · intro row raw cs hraw
    unfold recalc_new_pp
    apply recalc_sanitize_nonneg
    simp only [PLAYER_BUFFS, List.lookup]
    apply NN_cap_adjust
    apply NN_apply_length_bands
    split_ifs
    · exact NN_mul_const (NN_mul_const (NN_recomposed raw _ _ hraw)
        (le_of_lt (snm_pos_le_one _ _ _ _ _).1))
        (by norm_num [CS_NERF_MULTIPLIER])
    · exact NN_mul_const (NN_recomposed raw _ _ hraw)
        (le_of_lt (snm_pos_le_one _ _ _ _ _).1)
  · intro x hx
    cases x with
    | num q => simp [Flt.isNonfinite] at hx
    | nan => exact ⟨rfl, rfl⟩
    | inf => exact ⟨rfl, rfl⟩
    | ninf => exact ⟨rfl, rfl⟩

/-- Witness for C1 (amended): the concrete successful call of the main
pipeline persists `0 = 0/1000`; the recalc pipeline on `sampleScoreRow`
with non-negative raw components persists a non-negative value; NaN
collapses to 0.0 in both sanitizers. -/
theorem C1_amended_persistence_witness :
    (∃ k : ℤ, ((0 : ℚ), ({ mode := 0 } : ScoreParams)).1 = (k : ℚ) / 1000) ∧
    (0 : ℚ) ≤ ((0 : ℚ), ({ mode := 0 } : ScoreParams)).1 ∧
    0 ≤ recalc_new_pp sampleScoreRow { pp := some (Flt.num 1) } 4 ∧
    (sanitize_pp Flt.nan = 0 ∧ recalc_sanitize Flt.nan = 0) := by
  have hok : calculate_performance { mode := 0 } {} none none none none none
      true none 4 = Except.ok (0, { mode := 0 }) := by
    norm_num [calculate_performance, truthyStr,
      invalidAccAndHits, truthyQ, truthyN, normalize_mods, isRelax,
      Mods.NIGHTCORE, Mods.DOUBLETIME,
      score_acc_of, ACCURACY_MULTIPLIER, AIM_MULTIPLIER, SPEED_MULTIPLIER,
      FLASHLIGHT_MULTIPLIER, CUSTOM_PP_MULTIPLIER, CS_NERF_MULTIPLIER,
      orZero, Flt.num_mul, Flt.num_add, Flt.num_sub, Flt.num_max0,
      Flt.num_gtc, map_meta_present, length_adjust, cap_adjust,
      player_buff_adjust, PLAYER_BUFFS, PP_CAPS, sanitize_pp, round3_zero]
  have hraw : NNRaw { pp := some (Flt.num 1) } := by
    refine ⟨?_, ?_, ?_, ?_⟩ <;> simp [NN, orZero]
  exact ⟨C1_amended_persistence.1 _ _ none none none none none true none 4 _
      hok,
    C1_amended_persistence.2.1 _ _ none none none none none true none 4 _
      hok (by refine ⟨?_, ?_, ?_, ?_⟩ <;> simp [NN, orZero]),
    C1_amended_persistence.2.2.1 sampleScoreRow _ 4 hraw,
    C1_amended_persistence.2.2.2 Flt.nan rfl⟩
